import Mathlib

/-!
Verification of the skill-evaluation harness of the svelte-claude-skills
repository: a shallow embedding of the command handlers in
src/lib/server/evals.remote (test_skill_activation, test_response_quality,
run_activation_tests, run_quality_tests) and of the storage commands
store_activation_result / store_quality_result in
src/lib/evals/test-run-storage.remote.

Modelling conventions:
- The agent collaborator (the Claude Agent SDK query call) produces a lazy
  message stream.  It is embedded as the list of messages that were delivered
  before the stream either ended normally or raised, plus an optional error
  raised when the consumer pulls past that list (AgentStream).
- JavaScript numbers holding token counts and latencies are embedded as Nat;
  the estimated cost is embedded as Rat.
- The cost calculator (src/lib/evals/cost-calculator, a static per-model rate
  table) is not under src; no claim depends on the cost value, so the cost
  function is passed as an explicit parameter everywhere.
- Log-line accumulation (the logs arrays) is elided: log text is debug output
  and no claim concerns it.
- randomUUID identifiers and Date.now timestamps are elided from the stored
  rows; the claims concern the value columns.
-/

/-- Running usage accumulators of one agent call (UsageData in
src/lib/evals/metrics-tracker); all counters start at zero. -/
structure UsageData where
  input_tokens : Nat
  output_tokens : Nat
  cache_creation_tokens : Nat
  cache_read_tokens : Nat
  thinking_tokens : Nat
deriving DecidableEq

/-- The usage record optionally carried by one assistant message
(message.message.usage).  Absent numeric fields are read with a zero
fallback in the source, so they are embedded directly as Nat. -/
structure MsgUsage where
  input_tokens : Nat
  output_tokens : Nat
  cache_creation_input_tokens : Nat
  cache_read_input_tokens : Nat
  thinking_tokens : Nat
deriving DecidableEq

/-- One content block of an assistant message.  A toolUse block carries the
tool name and its input; input = none embeds a non-object input value, and
an object input is embedded as its key-value list (values already coerced
to strings, as the source applies String(...) to the field it reads). -/
inductive ContentBlock where
  | text (s : String)
  | toolUse (name : String) (input : Option (List (String × String)))
  | other
deriving DecidableEq

/-- One streamed SDK message.  Only assistant messages are inspected by the
source; every other message kind is embedded as `other`.  content = none
embeds a non-array content value. -/
inductive SDKMessage where
  | assistant (usage : Option MsgUsage) (content : Option (List ContentBlock))
  | other
deriving DecidableEq

/-- One agent invocation outcome: the messages delivered before the stream
ended, and, when err = some e, the error raised when the consumer pulls
past the last delivered message.  A call that fails before yielding
anything is msgs = [] with err = some e. -/
structure AgentStream where
  msgs : List SDKMessage
  err : Option String
deriving DecidableEq

/-- An activation test case (activation_test_schema). -/
structure ActivationTestCase where
  id : String
  query : String
  expected_skill : String
  should_activate : Bool
  description : String
  model : Option String
deriving DecidableEq

/-- A quality test case (quality_test_schema). -/
structure QualityTestCase where
  id : String
  skill : String
  query : String
  expected_facts : Option (List String)
  must_not_contain : Option (List String)
  description : String
  model : Option String
deriving DecidableEq

/-- The metrics block of a test result. -/
structure Metrics where
  input_tokens : Nat
  output_tokens : Nat
  cache_creation_tokens : Nat
  cache_read_tokens : Nat
  thinking_tokens : Nat
  total_tokens : Nat
  latency_ms : Nat
  estimated_cost_usd : Rat
deriving DecidableEq

/-- ActivationTestResult of evals.remote (logs elided). -/
structure ActivationTestResult where
  test_id : String
  passed : Bool
  expected_skill : String
  activated_skill : Option String
  error : Option String
  metrics : Option Metrics
deriving DecidableEq

/-- QualityTestResult of evals.remote (logs elided). -/
structure QualityTestResult where
  test_id : String
  passed : Bool
  missing_facts : List String
  forbidden_content : List String
  response_preview : String
  response_full_text : Option String
  error : Option String
  metrics : Option Metrics
deriving DecidableEq

/-- The zero-initialised usage accumulator. -/
def usage0 : UsageData :=
  { input_tokens := 0, output_tokens := 0, cache_creation_tokens := 0
    cache_read_tokens := 0, thinking_tokens := 0 }

/-- Accumulate one assistant message usage record into the running totals
(the += block shared by both test handlers).  Adding a zero thinking count
is the embedding of the truthiness guard around thinking_tokens. -/
def add_usage (u : UsageData) (m : MsgUsage) : UsageData :=
  { input_tokens := u.input_tokens + m.input_tokens
    output_tokens := u.output_tokens + m.output_tokens
    cache_creation_tokens := u.cache_creation_tokens + m.cache_creation_input_tokens
    cache_read_tokens := u.cache_read_tokens + m.cache_read_input_tokens
    thinking_tokens := u.thinking_tokens + m.thinking_tokens }

/-- The per-block activation condition of test_skill_activation: a tool_use
block named Skill whose object input has a skill key; its value is the
activated skill. -/
def skill_of_block : ContentBlock → Option String
  | ContentBlock.toolUse name (some input) =>
      if name = "Skill" then input.lookup "skill" else none
  | _ => none

/-- The inner for-block loop of test_skill_activation: first matching block
wins and the loop breaks. -/
def find_skill_in_blocks : List ContentBlock → Option String
  | [] => none
  | b :: rest =>
      match skill_of_block b with
      | some s => some s
      | none => find_skill_in_blocks rest

/-- Usage accumulation step of one message: messages without a usage record
leave the totals unchanged. -/
def usage_of_msg (u : UsageData) : Option MsgUsage → UsageData
  | some x => add_usage u x
  | none => u

/-- Activation scan of one assistant message content value (the
Array.isArray guard plus the block loop). -/
def act_of_content : Option (List ContentBlock) → Option String
  | some blocks => find_skill_in_blocks blocks
  | none => none

/-- JavaScript truthiness of the activated_skill variable (string or null):
null and the empty string are falsy. -/
def truthy_str : Option String → Bool
  | some s => ! (s == "")
  | none => false

/-- The activated_skill value after scanning one assistant message content:
the first matching block overwrites the current value (the inner break is
unconditional), a message without a matching block leaves it unchanged. -/
def act_after_msg (act : Option String) (content : Option (List ContentBlock)) :
    Option String :=
  match act_of_content content with
  | some s => some s
  | none => act

/-- The for-await message loop of test_skill_activation: usage of each
assistant message is accumulated and its blocks are scanned; the outer
break guard is `if (activated_skill)` — a truthiness test — so the loop
stops only once activated_skill is non-null AND non-empty; an empty-string
skill value is kept but does not stop the loop, and later messages may
overwrite it.  Returns (activated_skill, usage). -/
def consume_activation : List SDKMessage → Option String → UsageData →
    Option String × UsageData
  | [], act, u => (act, u)
  | SDKMessage.other :: rest, act, u => consume_activation rest act u
  | SDKMessage.assistant mu content :: rest, act, u =>
      if truthy_str (act_after_msg act content) then
        (act_after_msg act content, usage_of_msg u mu)
      else
        consume_activation rest (act_after_msg act content) (usage_of_msg u mu)

/-- Concatenation of the text blocks of one assistant message
(the response_text += block.text loop). -/
def text_of_blocks : List ContentBlock → String
  | [] => ""
  | ContentBlock.text s :: rest => s ++ text_of_blocks rest
  | _ :: rest => text_of_blocks rest

/-- Text extraction from one assistant message content value (the
Array.isArray guard plus the text block loop). -/
def text_of_content : Option (List ContentBlock) → String
  | some blocks => text_of_blocks blocks
  | none => ""

/-- The for-await message loop of test_response_quality: accumulates usage
and response text over the whole stream (never breaks early).
Returns (response_text, usage). -/
def consume_quality : List SDKMessage → String → UsageData → String × UsageData
  | [], acc, u => (acc, u)
  | SDKMessage.other :: rest, acc, u => consume_quality rest acc u
  | SDKMessage.assistant mu content :: rest, acc, u =>
      consume_quality rest (acc ++ text_of_content content) (usage_of_msg u mu)

/-- Per-character lowercasing, the embedding of String.prototype.toLowerCase
as used on the ASCII fact and response strings of this harness. -/
def to_lower (s : String) : String := String.mk (s.data.map Char.toLower)

/-- Substring containment on character lists, the embedding of
String.prototype.includes: true iff the needle occurs contiguously. -/
def list_contains_sub (needle : List Char) : List Char → Bool
  | [] => needle.isEmpty
  | c :: t => needle.isPrefixOf (c :: t) || list_contains_sub needle t

/-- The case-insensitive containment check of test_response_quality:
haystack.toLowerCase().includes(needle.toLowerCase()). -/
def str_includes (haystack needle : String) : Bool :=
  list_contains_sub (to_lower needle).data (to_lower haystack).data

/-- Modelled from the spec: total_tokens(usage) = input + output +
cache_creation + cache_read, thinking tokens tracked separately and not
included.  The metrics-tracker source file is not under src. -/
def calculate_total_tokens (u : UsageData) : Nat :=
  u.input_tokens + u.output_tokens + u.cache_creation_tokens + u.cache_read_tokens

/-- The default model identifier used when a test case carries none. -/
def default_model : String := "claude-sonnet-4-5-20250929"

/-- The result built by the try-branch of test_skill_activation after the
message loop ends with activation act and usage u. -/
def activation_success_result (cost : UsageData → String → Rat)
    (tc : ActivationTestCase) (act : Option String) (u : UsageData)
    (latency_ms : Nat) : ActivationTestResult :=
  { test_id := tc.id
    passed := decide (act = some tc.expected_skill) && tc.should_activate
    expected_skill := tc.expected_skill
    activated_skill := act
    error := none
    metrics := some
      { input_tokens := u.input_tokens
        output_tokens := u.output_tokens
        cache_creation_tokens := u.cache_creation_tokens
        cache_read_tokens := u.cache_read_tokens
        thinking_tokens := u.thinking_tokens
        total_tokens := calculate_total_tokens u
        latency_ms := latency_ms
        estimated_cost_usd := cost u (tc.model.getD default_model) } }

/-- The result built by the catch-branch of test_skill_activation: every
accumulator is discarded, only the id, the expected skill and the error
text survive. -/
def activation_error_result (tc : ActivationTestCase) (e : String) :
    ActivationTestResult :=
  { test_id := tc.id
    passed := false
    expected_skill := tc.expected_skill
    activated_skill := none
    error := some e
    metrics := none }

/-- test_skill_activation: consume the stream starting from a null
activated_skill; the stream error is raised only when the loop actually
pulls past the delivered messages, i.e. when the truthiness break never
fired (after a full drain activated_skill is null or empty, both falsy);
the catch-branch then produces the error result. -/
def test_skill_activation (cost : UsageData → String → Rat)
    (tc : ActivationTestCase) (st : AgentStream) (latency_ms : Nat) :
    ActivationTestResult :=
  if truthy_str (consume_activation st.msgs none usage0).1 then
    activation_success_result cost tc (consume_activation st.msgs none usage0).1
      (consume_activation st.msgs none usage0).2 latency_ms
  else
    match st.err with
    | some e => activation_error_result tc e
    | none =>
        activation_success_result cost tc (consume_activation st.msgs none usage0).1
          (consume_activation st.msgs none usage0).2 latency_ms

/-- The result built by the catch-branch of test_response_quality: empty
fact lists, empty preview, absent full text and metrics. -/
def quality_error_result (tc : QualityTestCase) (e : String) :
    QualityTestResult :=
  { test_id := tc.id
    passed := false
    missing_facts := []
    forbidden_content := []
    response_preview := ""
    response_full_text := none
    error := some e
    metrics := none }

/-- test_response_quality: drain the whole stream (an error, if any, is
always reached on this path), then score missing facts and forbidden
content by case-insensitive containment, in input order. -/
def test_response_quality (cost : UsageData → String → Rat)
    (tc : QualityTestCase) (st : AgentStream) (latency_ms : Nat) :
    QualityTestResult :=
  match st.err with
  | some e => quality_error_result tc e
  | none =>
      let response_text := (consume_quality st.msgs "" usage0).1
      let u := (consume_quality st.msgs "" usage0).2
      let missing := (tc.expected_facts.getD []).filter
        (fun fact => ! str_includes response_text fact)
      let forbidden := (tc.must_not_contain.getD []).filter
        (fun s => str_includes response_text s)
      { test_id := tc.id
        passed := missing.isEmpty && forbidden.isEmpty
        missing_facts := missing
        forbidden_content := forbidden
        response_preview := String.mk (response_text.data.take 200)
        response_full_text := some response_text
        error := none
        metrics := some
          { input_tokens := u.input_tokens
            output_tokens := u.output_tokens
            cache_creation_tokens := u.cache_creation_tokens
            cache_read_tokens := u.cache_read_tokens
            thinking_tokens := u.thinking_tokens
            total_tokens := calculate_total_tokens u
            latency_ms := latency_ms
            estimated_cost_usd := cost u (tc.model.getD default_model) } }

/-- Outcome of the initialisation try-block at the top of the batch runners.
The source assigns run_id inside the try, so a failure of the version link
call leaves the already-assigned run_id bound; only a failure of
store_skill_versions or create_test_run leaves it null. -/
inductive InitOutcome where
  | ok (run_id : String)
  | versionsFail
  | createFail
  | linkFail (run_id : String)
deriving DecidableEq

/-- The run_id bound after the initialisation try-block. -/
def init_run_id : InitOutcome → Option String
  | InitOutcome.ok rid => some rid
  | InitOutcome.versionsFail => none
  | InitOutcome.createFail => none
  | InitOutcome.linkFail rid => some rid

/-- The input_tokens contribution of one result to the running totals
(zero when the result carries no metrics). -/
def metric_input_tokens : Option Metrics → Nat
  | some m => m.input_tokens
  | none => 0

/-- The output_tokens contribution of one result to the running totals. -/
def metric_output_tokens : Option Metrics → Nat
  | some m => m.output_tokens
  | none => 0

/-- The cache_read_tokens contribution of one result to the running totals. -/
def metric_cache_read_tokens : Option Metrics → Nat
  | some m => m.cache_read_tokens
  | none => 0

/-- The latency_ms contribution of one result to the running totals. -/
def metric_latency_ms : Option Metrics → Nat
  | some m => m.latency_ms
  | none => 0

/-- The estimated_cost_usd contribution of one result to the running totals. -/
def metric_cost_usd : Option Metrics → Rat
  | some m => m.estimated_cost_usd
  | none => 0

/-- Accumulator state of one batch loop: the per-case results in submission
order, the running totals, and the ids of the cases for which a per-case
persistence write was attempted (the if run_id guard around the store
call). -/
structure ActivationBatchAccum where
  results : List ActivationTestResult
  total_input_tokens : Nat
  total_output_tokens : Nat
  total_cache_read_tokens : Nat
  total_latency_ms : Nat
  total_cost_usd : Rat
  passed_count : Nat
  store_attempts : List String
deriving DecidableEq

/-- Accumulator state of the quality batch loop. -/
structure QualityBatchAccum where
  results : List QualityTestResult
  total_input_tokens : Nat
  total_output_tokens : Nat
  total_cache_read_tokens : Nat
  total_latency_ms : Nat
  total_cost_usd : Rat
  passed_count : Nat
  store_attempts : List String
deriving DecidableEq

/-- The per-case loop of run_activation_tests.  Each submitted case carries
its agent stream and measured latency.  The source loops left to right
mutating accumulators; this structural recursion produces the same result
list, the same store-attempt order, and the same totals (the sums are
commutative and associative). -/
def run_activation_loop (cost : UsageData → String → Rat)
    (run_id : Option String) :
    List (ActivationTestCase × AgentStream × Nat) → ActivationBatchAccum
  | [] =>
      { results := [], total_input_tokens := 0, total_output_tokens := 0
        total_cache_read_tokens := 0, total_latency_ms := 0, total_cost_usd := 0
        passed_count := 0, store_attempts := [] }
  | (tc, st, lat) :: rest =>
      let r := test_skill_activation cost tc st lat
      let acc := run_activation_loop cost run_id rest
      { results := r :: acc.results
        total_input_tokens := metric_input_tokens r.metrics + acc.total_input_tokens
        total_output_tokens := metric_output_tokens r.metrics + acc.total_output_tokens
        total_cache_read_tokens := metric_cache_read_tokens r.metrics + acc.total_cache_read_tokens
        total_latency_ms := metric_latency_ms r.metrics + acc.total_latency_ms
        total_cost_usd := metric_cost_usd r.metrics + acc.total_cost_usd
        passed_count := (if r.passed then 1 else 0) + acc.passed_count
        store_attempts := (if run_id.isSome then [tc.id] else []) ++ acc.store_attempts }

/-- The per-case loop of run_quality_tests. -/
def run_quality_loop (cost : UsageData → String → Rat)
    (run_id : Option String) :
    List (QualityTestCase × AgentStream × Nat) → QualityBatchAccum
  | [] =>
      { results := [], total_input_tokens := 0, total_output_tokens := 0
        total_cache_read_tokens := 0, total_latency_ms := 0, total_cost_usd := 0
        passed_count := 0, store_attempts := [] }
  | (tc, st, lat) :: rest =>
      let r := test_response_quality cost tc st lat
      let acc := run_quality_loop cost run_id rest
      { results := r :: acc.results
        total_input_tokens := metric_input_tokens r.metrics + acc.total_input_tokens
        total_output_tokens := metric_output_tokens r.metrics + acc.total_output_tokens
        total_cache_read_tokens := metric_cache_read_tokens r.metrics + acc.total_cache_read_tokens
        total_latency_ms := metric_latency_ms r.metrics + acc.total_latency_ms
        total_cost_usd := metric_cost_usd r.metrics + acc.total_cost_usd
        passed_count := (if r.passed then 1 else 0) + acc.passed_count
        store_attempts := (if run_id.isSome then [tc.id] else []) ++ acc.store_attempts }

/-- The finalization values the batch runner computes after the loop and
hands to update_test_run (total_tests was written at run creation and is
the submitted case count). -/
structure RunFinalization where
  total_tests : Nat
  passed_tests : Nat
  failed_tests : Nat
  total_input_tokens : Nat
  total_output_tokens : Nat
  total_cache_read_tokens : Nat
  total_latency_ms : Nat
  total_cost_usd : Rat
  avg_latency_ms : Rat
deriving DecidableEq

/-- What one batch invocation returns and the persistence effects it
attempted: update_attempted is the if run_id guard around update_test_run. -/
structure BatchOutcome (R : Type) where
  results : List R
  run_id : Option String
  final : RunFinalization
  store_attempts : List String
  update_attempted : Bool

/-- run_activation_tests: bind run_id from initialisation, run every case in
order, then compute the finalization values (failed = length - passed,
average latency guarded by the length > 0 ternary). -/
def run_activation_tests (cost : UsageData → String → Rat)
    (init : InitOutcome)
    (inputs : List (ActivationTestCase × AgentStream × Nat)) :
    BatchOutcome ActivationTestResult :=
  let run_id := init_run_id init
  let acc := run_activation_loop cost run_id inputs
  { results := acc.results
    run_id := run_id
    final :=
      { total_tests := inputs.length
        passed_tests := acc.passed_count
        failed_tests := inputs.length - acc.passed_count
        total_input_tokens := acc.total_input_tokens
        total_output_tokens := acc.total_output_tokens
        total_cache_read_tokens := acc.total_cache_read_tokens
        total_latency_ms := acc.total_latency_ms
        total_cost_usd := acc.total_cost_usd
        avg_latency_ms :=
          if 0 < inputs.length then
            (acc.total_latency_ms : Rat) / (inputs.length : Rat)
          else 0 }
    store_attempts := acc.store_attempts
    update_attempted := run_id.isSome }

/-- run_quality_tests: identical orchestration over the quality handler. -/
def run_quality_tests (cost : UsageData → String → Rat)
    (init : InitOutcome)
    (inputs : List (QualityTestCase × AgentStream × Nat)) :
    BatchOutcome QualityTestResult :=
  let run_id := init_run_id init
  let acc := run_quality_loop cost run_id inputs
  { results := acc.results
    run_id := run_id
    final :=
      { total_tests := inputs.length
        passed_tests := acc.passed_count
        failed_tests := inputs.length - acc.passed_count
        total_input_tokens := acc.total_input_tokens
        total_output_tokens := acc.total_output_tokens
        total_cache_read_tokens := acc.total_cache_read_tokens
        total_latency_ms := acc.total_latency_ms
        total_cost_usd := acc.total_cost_usd
        avg_latency_ms :=
          if 0 < inputs.length then
            (acc.total_latency_ms : Rat) / (inputs.length : Rat)
          else 0 }
    store_attempts := acc.store_attempts
    update_attempted := run_id.isSome }

/-- The x || null coercion of JavaScript applied to an optional count:
an absent value stays null and a zero value becomes null. -/
def or_null_nat : Option Nat → Option Nat
  | none => none
  | some v => if v = 0 then none else some v

/-- The x || null coercion applied to an optional cost. -/
def or_null_rat : Option Rat → Option Rat
  | none => none
  | some v => if v = 0 then none else some v

/-- The x || null coercion applied to an optional string: absent and empty
both become null. -/
def or_null_str : Option String → Option String
  | none => none
  | some s => if s = "" then none else some s

/-- The x || d coercion applied to an optional string with a default. -/
def or_default_str (x : Option String) (d : String) : String :=
  match x with
  | none => d
  | some s => if s = "" then d else s

/-- One row of the activation_results table as bound by
store_activation_result (the generated id and created_at are elided). -/
structure ActivationResultRow where
  run_id : String
  test_id : String
  query : String
  expected_skill : String
  activated_skill : Option String
  should_activate : Nat
  passed : Nat
  error : Option String
  test_case_source : String
  session_context : Option String
  input_tokens : Option Nat
  output_tokens : Option Nat
  cache_creation_tokens : Option Nat
  cache_read_tokens : Option Nat
  thinking_tokens : Option Nat
  latency_ms : Option Nat
  estimated_cost_usd : Option Rat
deriving DecidableEq

/-- One row of the quality_results table as bound by store_quality_result
(the generated id and created_at are elided; the child rows for missing
facts, forbidden content and logs are separate tables). -/
structure QualityResultRow where
  run_id : String
  test_id : String
  skill : String
  query : String
  response_preview : String
  response_full_text : Option String
  passed : Nat
  error : Option String
  test_case_source : String
  session_context : Option String
  input_tokens : Option Nat
  output_tokens : Option Nat
  cache_creation_tokens : Option Nat
  cache_read_tokens : Option Nat
  thinking_tokens : Option Nat
  latency_ms : Option Nat
  estimated_cost_usd : Option Rat
deriving DecidableEq

/-- store_activation_result of test-run-storage.remote: every metrics column
goes through the metrics?.field || null coercion. -/
def store_activation_result (run_id : String) (r : ActivationTestResult)
    (query : Option String) (should_activate : Option Bool)
    (test_case_source : Option String) (session_context : Option String) :
    ActivationResultRow :=
  { run_id := run_id
    test_id := r.test_id
    query := or_default_str query ""
    expected_skill := r.expected_skill
    activated_skill := r.activated_skill
    should_activate :=
      match should_activate with
      | some b => if b then 1 else 0
      | none => 1
    passed := if r.passed then 1 else 0
    error := or_null_str r.error
    test_case_source := or_default_str test_case_source "synthetic"
    session_context := or_null_str session_context
    input_tokens := or_null_nat (r.metrics.map (fun m => m.input_tokens))
    output_tokens := or_null_nat (r.metrics.map (fun m => m.output_tokens))
    cache_creation_tokens := or_null_nat (r.metrics.map (fun m => m.cache_creation_tokens))
    cache_read_tokens := or_null_nat (r.metrics.map (fun m => m.cache_read_tokens))
    thinking_tokens := or_null_nat (r.metrics.map (fun m => m.thinking_tokens))
    latency_ms := or_null_nat (r.metrics.map (fun m => m.latency_ms))
    estimated_cost_usd := or_null_rat (r.metrics.map (fun m => m.estimated_cost_usd)) }

/-- store_quality_result of test-run-storage.remote. -/
def store_quality_result (run_id : String) (r : QualityTestResult)
    (query : String) (skill : String) (response_full_text : Option String)
    (test_case_source : Option String) (session_context : Option String) :
    QualityResultRow :=
  { run_id := run_id
    test_id := r.test_id
    skill := skill
    query := query
    response_preview := r.response_preview
    response_full_text := or_null_str response_full_text
    passed := if r.passed then 1 else 0
    error := or_null_str r.error
    test_case_source := or_default_str test_case_source "synthetic"
    session_context := or_null_str session_context
    input_tokens := or_null_nat (r.metrics.map (fun m => m.input_tokens))
    output_tokens := or_null_nat (r.metrics.map (fun m => m.output_tokens))
    cache_creation_tokens := or_null_nat (r.metrics.map (fun m => m.cache_creation_tokens))
    cache_read_tokens := or_null_nat (r.metrics.map (fun m => m.cache_read_tokens))
    thinking_tokens := or_null_nat (r.metrics.map (fun m => m.thinking_tokens))
    latency_ms := or_null_nat (r.metrics.map (fun m => m.latency_ms))
    estimated_cost_usd := or_null_rat (r.metrics.map (fun m => m.estimated_cost_usd)) }

/-- The all-zero metrics block. -/
def zero_metrics : Metrics :=
  { input_tokens := 0, output_tokens := 0, cache_creation_tokens := 0
    cache_read_tokens := 0, thinking_tokens := 0, total_tokens := 0
    latency_ms := 0, estimated_cost_usd := 0 }

lemma list_contains_sub_iff (n h : List Char) :
    list_contains_sub n h = true ↔ List.IsInfix n h := by
  induction h with
  | nil =>
      simp only [list_contains_sub, List.isEmpty_iff]
      constructor
      · rintro rfl
        exact ⟨[], [], rfl⟩
      · rintro ⟨s, t, hst⟩
        rcases List.append_eq_nil.mp hst with ⟨h1, _⟩
        exact (List.append_eq_nil.mp h1).2
  | cons c t ih =>
      simp only [list_contains_sub, Bool.or_eq_true, ih,
        List.isPrefixOf_iff_prefix]
      constructor
      · rintro (hp | hi)
        · exact hp.isInfix
        · rcases hi with ⟨s, u, rfl⟩
          exact ⟨c :: s, u, by simp⟩
      · rintro ⟨s, u, hsu⟩
        cases s with
        | nil =>
            left
            exact ⟨u, by simpa using hsu⟩
        | cons a s2 =>
            right
            have h2 : a = c ∧ s2 ++ n ++ u = t := by simpa using hsu
            exact ⟨s2, u, h2.2⟩

lemma str_includes_eq (h n : String) :
    str_includes h n
      = decide (List.IsInfix (to_lower n).data (to_lower h).data) := by
  cases hd : decide (List.IsInfix (to_lower n).data (to_lower h).data) with
  | false =>
      have hni := of_decide_eq_false hd
      cases hb : str_includes h n with
      | false => rfl
      | true => exact absurd ((list_contains_sub_iff _ _).mp hb) hni
  | true => exact (list_contains_sub_iff _ _).mpr (of_decide_eq_true hd)

lemma run_activation_loop_results (cost : UsageData → String → Rat)
    (rid : Option String) (l : List (ActivationTestCase × AgentStream × Nat)) :
    (run_activation_loop cost rid l).results
      = l.map (fun x => test_skill_activation cost x.1 x.2.1 x.2.2) := by
  induction l with
  | nil => rfl
  | cons x rest ih =>
      rcases x with ⟨tc, st, lat⟩
      simp [run_activation_loop, ih]

lemma run_quality_loop_results (cost : UsageData → String → Rat)
    (rid : Option String) (l : List (QualityTestCase × AgentStream × Nat)) :
    (run_quality_loop cost rid l).results
      = l.map (fun x => test_response_quality cost x.1 x.2.1 x.2.2) := by
  induction l with
  | nil => rfl
  | cons x rest ih =>
      rcases x with ⟨tc, st, lat⟩
      simp [run_quality_loop, ih]

lemma run_activation_loop_passed_le (cost : UsageData → String → Rat)
    (rid : Option String) (l : List (ActivationTestCase × AgentStream × Nat)) :
    (run_activation_loop cost rid l).passed_count ≤ l.length := by
  induction l with
  | nil => simp [run_activation_loop]
  | cons x rest ih =>
      rcases x with ⟨tc, st, lat⟩
      simp only [run_activation_loop, List.length_cons]
      split <;> omega

lemma run_quality_loop_passed_le (cost : UsageData → String → Rat)
    (rid : Option String) (l : List (QualityTestCase × AgentStream × Nat)) :
    (run_quality_loop cost rid l).passed_count ≤ l.length := by
  induction l with
  | nil => simp [run_quality_loop]
  | cons x rest ih =>
      rcases x with ⟨tc, st, lat⟩
      simp only [run_quality_loop, List.length_cons]
      split <;> omega

lemma run_activation_loop_store_none (cost : UsageData → String → Rat)
    (l : List (ActivationTestCase × AgentStream × Nat)) :
    (run_activation_loop cost none l).store_attempts = [] := by
  induction l with
  | nil => rfl
  | cons x rest ih =>
      rcases x with ⟨tc, st, lat⟩
      simp [run_activation_loop, ih]

lemma run_quality_loop_store_none (cost : UsageData → String → Rat)
    (l : List (QualityTestCase × AgentStream × Nat)) :
    (run_quality_loop cost none l).store_attempts = [] := by
  induction l with
  | nil => rfl
  | cons x rest ih =>
      rcases x with ⟨tc, st, lat⟩
      simp [run_quality_loop, ih]

/-- A concrete cost function for witnesses (the claims hold for every cost
function). -/
def cost0 : UsageData → String → Rat := fun _ _ => 0

/-- A concrete Skill tool-use block activating svelte5-runes. -/
def skill_block : ContentBlock :=
  ContentBlock.toolUse "Skill" (some [("skill", "svelte5-runes")])

/-- An assistant message carrying the activating block. -/
def act_msg : SDKMessage := SDKMessage.assistant none (some [skill_block])

/-- An assistant message carrying only usage counters. -/
def usage_msg : SDKMessage :=
  SDKMessage.assistant
    (some { input_tokens := 5, output_tokens := 3
            cache_creation_input_tokens := 0, cache_read_input_tokens := 2
            thinking_tokens := 0 })
    none

/-- A concrete activation test case. -/
def sample_act_case : ActivationTestCase :=
  { id := "act-001", query := "How do I use state runes?"
    expected_skill := "svelte5-runes", should_activate := true
    description := "d", model := none }

/-- A stream that activates svelte5-runes and ends without error. -/
def ok_act_stream : AgentStream :=
  { msgs := [usage_msg, act_msg], err := none }

/-- A stream that fails before yielding any message. -/
def err_stream : AgentStream := { msgs := [], err := some "boom" }

/-- A concrete quality test case with one expected fact and one forbidden
string. -/
def sample_quality_case : QualityTestCase :=
  { id := "qual-004", skill := "svelte5-runes"
    query := "How do I handle click events?"
    expected_facts := some ["onclick"]
    must_not_contain := some ["on:click"]
    description := "d", model := none }

/-- An assistant message whose text contains OnClick in mixed case. -/
def onclick_text_msg : SDKMessage :=
  SDKMessage.assistant
    (some { input_tokens := 5, output_tokens := 3
            cache_creation_input_tokens := 0, cache_read_input_tokens := 2
            thinking_tokens := 0 })
    (some [ContentBlock.text "Use OnClick here"])

/-- A quality stream that completes normally. -/
def ok_quality_stream : AgentStream := { msgs := [onclick_text_msg], err := none }

/-- A quality stream that yields one text message and then raises. -/
def err_quality_stream : AgentStream :=
  { msgs := [onclick_text_msg], err := some "boom" }

/-- An assistant message whose Skill tool-use carries an empty-string skill
value: it sets activated_skill non-null but falsy. -/
def empty_skill_msg : SDKMessage :=
  SDKMessage.assistant none
    (some [ContentBlock.toolUse "Skill" (some [("skill", "")])])

/-- Claim C1: for every activation test case and stream, on the non-error
path the result satisfies passed = (activated_skill = expected_skill and
should_activate); in particular a null activated_skill never passes, and a
case with should_activate = false never passes. -/
theorem claim1_activation_scoring (cost : UsageData → String → Rat)
    (tc : ActivationTestCase) (st : AgentStream) (lat : Nat)
    (hok : (test_skill_activation cost tc st lat).error = none) :
    ((test_skill_activation cost tc st lat).passed
        = (decide ((test_skill_activation cost tc st lat).activated_skill
              = some (test_skill_activation cost tc st lat).expected_skill)
           && tc.should_activate))
    ∧ ((test_skill_activation cost tc st lat).activated_skill = none →
        (test_skill_activation cost tc st lat).passed = false)
    ∧ (tc.should_activate = false →
        (test_skill_activation cost tc st lat).passed = false) := by
  rcases hact : (consume_activation st.msgs none usage0).1 with _ | s <;>
    cases ht : truthy_str (consume_activation st.msgs none usage0).1 <;>
      rcases herr : st.err with _ | e <;>
        simp_all [test_skill_activation, truthy_str,
          activation_success_result, activation_error_result]

/-- Witness for C1 at a concrete activating stream. -/
theorem claim1_activation_scoring_witness :
    (test_skill_activation cost0 sample_act_case ok_act_stream 5).passed
      = (decide ((test_skill_activation cost0 sample_act_case ok_act_stream 5).activated_skill
            = some (test_skill_activation cost0 sample_act_case ok_act_stream 5).expected_skill)
         && sample_act_case.should_activate) :=
  (claim1_activation_scoring cost0 sample_act_case ok_act_stream 5 rfl).1

/-- Claim C2: run_activation_tests returns one result per submitted case, in
order; the i-th result is exactly the per-case handler output on the i-th
case (so it carries that case id), and a case whose stream raises before
any activation is found yields passed = false with the error text, without
affecting any other case. -/
theorem claim2_partial_failure_isolation (cost : UsageData → String → Rat)
    (init : InitOutcome)
    (inputs : List (ActivationTestCase × AgentStream × Nat)) :
    ((run_activation_tests cost init inputs).results
        = inputs.map (fun x => test_skill_activation cost x.1 x.2.1 x.2.2))
    ∧ (∀ (tc : ActivationTestCase) (st : AgentStream) (lat : Nat),
        (test_skill_activation cost tc st lat).test_id = tc.id)
    ∧ (∀ (tc : ActivationTestCase) (st : AgentStream) (lat : Nat) (e : String),
        st.err = some e → (consume_activation st.msgs none usage0).1 = none →
        (test_skill_activation cost tc st lat).passed = false
        ∧ (test_skill_activation cost tc st lat).error = some e) := by
  refine ⟨?_, ?_, ?_⟩
  · simpa [run_activation_tests] using
      run_activation_loop_results cost (init_run_id init) inputs
  · intro tc st lat
    cases ht : truthy_str (consume_activation st.msgs none usage0).1 <;>
      rcases herr : st.err with _ | e <;>
        simp [test_skill_activation, ht, herr, activation_success_result,
          activation_error_result]
  · intro tc st lat e he hn
    simp [test_skill_activation, hn, he, truthy_str, activation_error_result]

/-- Witness for C2: a batch whose only case has a failing stream still
scores it failed with the error captured. -/
theorem claim2_partial_failure_isolation_witness :
    (test_skill_activation cost0 sample_act_case err_stream 7).passed = false :=
  ((claim2_partial_failure_isolation cost0 InitOutcome.versionsFail
      [(sample_act_case, err_stream, 7)]).2.2
    sample_act_case err_stream 7 "boom" rfl rfl).1

/-- Claim C3: on the non-error path, missing_facts is the sublist of
expected_facts (input order) whose lowercased form is not a substring of
the lowercased accumulated response, forbidden_content is the sublist of
must_not_contain whose lowercased form is such a substring, and the result
passes exactly when both lists are empty. -/
theorem claim3_quality_scoring (cost : UsageData → String → Rat)
    (tc : QualityTestCase) (st : AgentStream) (lat : Nat)
    (hok : (test_response_quality cost tc st lat).error = none) :
    ((test_response_quality cost tc st lat).missing_facts
        = (tc.expected_facts.getD []).filter
            (fun fact => ! decide (List.IsInfix (to_lower fact).data
                (to_lower (consume_quality st.msgs "" usage0).1).data)))
    ∧ ((test_response_quality cost tc st lat).forbidden_content
        = (tc.must_not_contain.getD []).filter
            (fun s => decide (List.IsInfix (to_lower s).data
                (to_lower (consume_quality st.msgs "" usage0).1).data)))
    ∧ ((test_response_quality cost tc st lat).passed = true ↔
        ((test_response_quality cost tc st lat).missing_facts = []
         ∧ (test_response_quality cost tc st lat).forbidden_content = [])) := by
  rcases herr : st.err with _ | e
  · refine ⟨?_, ?_, ?_⟩
    · simp [test_response_quality, herr, str_includes_eq]
    · simp [test_response_quality, herr, str_includes_eq]
    · simp [test_response_quality, herr, List.isEmpty_iff, Bool.and_eq_true]
  · exfalso
    simp [test_response_quality, herr, quality_error_result] at hok

/-- Witness for C3: the expected fact onclick is matched case-insensitively
by a response containing OnClick, and the forbidden string is absent, so
the concrete case passes. -/
theorem claim3_quality_scoring_witness :
    (test_response_quality cost0 sample_quality_case ok_quality_stream 3).passed
      = true := by
  have h := claim3_quality_scoring cost0 sample_quality_case ok_quality_stream 3 rfl
  exact h.2.2.mpr ⟨by decide, by decide⟩

/-- Claim C4 is false as stated: a quality result produced by the error path
has empty missing_facts and empty forbidden_content and yet passed = false,
so empty diagnostics do not imply a pass once error results are included. -/
theorem claim4_counterexample :
    ¬ (((test_response_quality cost0 sample_quality_case err_stream 3).missing_facts = []
        ∧ (test_response_quality cost0 sample_quality_case err_stream 3).forbidden_content = [])
       → (test_response_quality cost0 sample_quality_case err_stream 3).passed = true) := by
  decide

/-- Claim C4 amended: restricted to results of the non-error path (error
absent), empty missing_facts and empty forbidden_content imply
passed = true. -/
theorem claim4_amended_empty_implies_passed (cost : UsageData → String → Rat)
    (tc : QualityTestCase) (st : AgentStream) (lat : Nat)
    (hok : (test_response_quality cost tc st lat).error = none)
    (hm : (test_response_quality cost tc st lat).missing_facts = [])
    (hf : (test_response_quality cost tc st lat).forbidden_content = []) :
    (test_response_quality cost tc st lat).passed = true := by
  rcases herr : st.err with _ | e
  · simp only [test_response_quality, herr] at hm hf ⊢
    simp [hm, hf]
  · exfalso
    simp [test_response_quality, herr, quality_error_result] at hok

/-- Witness for the amended C4 at a concrete passing case. -/
theorem claim4_amended_witness :
    (test_response_quality cost0 sample_quality_case ok_quality_stream 4).passed
      = true :=
  claim4_amended_empty_implies_passed cost0 sample_quality_case
    ok_quality_stream 4 rfl (by decide) (by decide)

/-- Claim C5: the finalization values of both batch runners satisfy
failed = total - passed (with passed ≤ total, total being the submitted
case count) and avg latency = total latency / total when total > 0, and 0
when total = 0. -/
theorem claim5_finalization (cost : UsageData → String → Rat)
    (init : InitOutcome)
    (ainputs : List (ActivationTestCase × AgentStream × Nat))
    (qinputs : List (QualityTestCase × AgentStream × Nat)) :
    ((run_activation_tests cost init ainputs).final.failed_tests
        = (run_activation_tests cost init ainputs).final.total_tests
          - (run_activation_tests cost init ainputs).final.passed_tests)
    ∧ ((run_activation_tests cost init ainputs).final.passed_tests
        ≤ (run_activation_tests cost init ainputs).final.total_tests)
    ∧ ((run_activation_tests cost init ainputs).final.total_tests = ainputs.length)
    ∧ (0 < (run_activation_tests cost init ainputs).final.total_tests →
        (run_activation_tests cost init ainputs).final.avg_latency_ms
          = ((run_activation_tests cost init ainputs).final.total_latency_ms : Rat)
            / ((run_activation_tests cost init ainputs).final.total_tests : Rat))
    ∧ ((run_activation_tests cost init ainputs).final.total_tests = 0 →
        (run_activation_tests cost init ainputs).final.avg_latency_ms = 0)
    ∧ ((run_quality_tests cost init qinputs).final.failed_tests
        = (run_quality_tests cost init qinputs).final.total_tests
          - (run_quality_tests cost init qinputs).final.passed_tests)
    ∧ ((run_quality_tests cost init qinputs).final.passed_tests
        ≤ (run_quality_tests cost init qinputs).final.total_tests)
    ∧ ((run_quality_tests cost init qinputs).final.total_tests = qinputs.length)
    ∧ (0 < (run_quality_tests cost init qinputs).final.total_tests →
        (run_quality_tests cost init qinputs).final.avg_latency_ms
          = ((run_quality_tests cost init qinputs).final.total_latency_ms : Rat)
            / ((run_quality_tests cost init qinputs).final.total_tests : Rat))
    ∧ ((run_quality_tests cost init qinputs).final.total_tests = 0 →
        (run_quality_tests cost init qinputs).final.avg_latency_ms = 0) := by
  refine ⟨rfl, run_activation_loop_passed_le cost (init_run_id init) ainputs, rfl,
    ?_, ?_, rfl, run_quality_loop_passed_le cost (init_run_id init) qinputs, rfl,
    ?_, ?_⟩
  · intro h
    simp only [run_activation_tests] at h ⊢
    rw [if_pos h]
  · intro h
    simp only [run_activation_tests] at h ⊢
    rw [h]
    simp
  · intro h
    simp only [run_quality_tests] at h ⊢
    rw [if_pos h]
  · intro h
    simp only [run_quality_tests] at h ⊢
    rw [h]
    simp

/-- Witness for C5 at a singleton batch (total = 1 > 0). -/
theorem claim5_finalization_witness :
    (run_activation_tests cost0 (InitOutcome.ok "r")
        [(sample_act_case, ok_act_stream, 10)]).final.avg_latency_ms
      = ((run_activation_tests cost0 (InitOutcome.ok "r")
            [(sample_act_case, ok_act_stream, 10)]).final.total_latency_ms : Rat)
        / ((run_activation_tests cost0 (InitOutcome.ok "r")
            [(sample_act_case, ok_act_stream, 10)]).final.total_tests : Rat) :=
  (claim5_finalization cost0 (InitOutcome.ok "r")
      [(sample_act_case, ok_act_stream, 10)] []).2.2.2.1 (by decide)

lemma find_skill_in_blocks_first (s : String) (blocks1 blocks2 : List ContentBlock)
    (b : ContentBlock) :
    (∀ b2 ∈ blocks1, skill_of_block b2 = none) → skill_of_block b = some s →
    find_skill_in_blocks (blocks1 ++ b :: blocks2) = some s := by
  induction blocks1 with
  | nil =>
      intro _ hb
      simp [find_skill_in_blocks, hb]
  | cons a rest ih =>
      intro hnone hb
      have ha := hnone a (List.mem_cons_self a rest)
      have hr := ih (fun x hx => hnone x (List.mem_cons_of_mem a hx)) hb
      simp [find_skill_in_blocks, ha, hr]

lemma consume_activation_break (msgs1 msgs2 : List SDKMessage)
    (act : Option String) (u : UsageData)
    (hact : truthy_str act = false)
    (h : truthy_str (consume_activation msgs1 act u).1 = true) :
    consume_activation (msgs1 ++ msgs2) act u = consume_activation msgs1 act u := by
  induction msgs1 generalizing act u with
  | nil =>
      simp only [consume_activation] at h
      rw [h] at hact
      exact absurd hact (by simp)
  | cons m rest ih =>
      cases m with
      | other =>
          simp only [List.cons_append, consume_activation] at h ⊢
          exact ih _ _ hact h
      | assistant mu content =>
          simp only [List.cons_append, consume_activation] at h ⊢
          rcases ht : truthy_str (act_after_msg act content) with _ | _ <;>
            simp only [ht, if_true, if_false] at h ⊢
          exact ih _ _ ht h

/-- Claim C6 is false as stated: the break guard in the source is the
truthiness test `if (activated_skill)`, not a null check.  A Skill tool-use
whose skill field is the empty string sets activated_skill to a non-null
value, yet the loop keeps consuming: a later message is still interpreted
and overwrites the value. -/
theorem claim6_counterexample :
    (consume_activation [empty_skill_msg] none usage0).1 = some ""
    ∧ (consume_activation [empty_skill_msg, act_msg] none usage0).1
        = some "svelte5-runes"
    ∧ (test_skill_activation cost0 sample_act_case
          { msgs := [empty_skill_msg, act_msg], err := none } 5).activated_skill
        = some "svelte5-runes" := by
  refine ⟨by decide, by decide, by decide⟩

/-- Claim C6 amended: activation is taken from the first Skill tool-use
block whose input carries a skill field — the inner break is unconditional,
so later blocks of that message are never scanned — but the message loop
stops only once activated_skill is truthy (non-null AND non-empty): after a
truthy activation in a prefix no later message is consumed and no pending
stream error is raised, while an empty-string activation, although
non-null, lets the loop continue. -/
theorem claim6_truthy_break (cost : UsageData → String → Rat)
    (tc : ActivationTestCase) (lat : Nat) (s : String) :
    (∀ (blocks1 blocks2 : List ContentBlock) (b : ContentBlock),
        (∀ b2 ∈ blocks1, skill_of_block b2 = none) →
        skill_of_block b = some s →
        find_skill_in_blocks (blocks1 ++ b :: blocks2) = some s)
    ∧ (∀ (msgs1 msgs2 : List SDKMessage) (act : Option String) (u : UsageData),
        truthy_str act = false →
        truthy_str (consume_activation msgs1 act u).1 = true →
        consume_activation (msgs1 ++ msgs2) act u = consume_activation msgs1 act u)
    ∧ (∀ (msgs1 msgs2 : List SDKMessage) (e2 : Option String),
        truthy_str (consume_activation msgs1 none usage0).1 = true →
        (test_skill_activation cost tc { msgs := msgs1 ++ msgs2, err := e2 } lat).activated_skill
            = (consume_activation msgs1 none usage0).1
        ∧ (test_skill_activation cost tc { msgs := msgs1 ++ msgs2, err := e2 } lat).error
            = none) := by
  refine ⟨fun b1 b2 b hn hb => find_skill_in_blocks_first s b1 b2 b hn hb,
    fun m1 m2 act u hact h => consume_activation_break m1 m2 act u hact h, ?_⟩
  intro m1 m2 e2 h
  have hc := consume_activation_break m1 m2 none usage0 rfl h
  cases e2 <;>
    simp [test_skill_activation, hc, h, activation_success_result]

/-- Witness for the amended C6: a truthy activation found in the first
message survives a later message and a pending stream error. -/
theorem claim6_truthy_break_witness :
    (test_skill_activation cost0 sample_act_case
        { msgs := [act_msg, usage_msg], err := some "late" } 5).activated_skill
      = (consume_activation [act_msg] none usage0).1 :=
  ((claim6_truthy_break cost0 sample_act_case 5 "svelte5-runes").2.2
      [act_msg] [usage_msg] (some "late") (by decide)).1

/-- Claim C7 is false as stated: when the version-link call fails at batch
start, run_id has already been assigned by run-record creation, so it does
not stay null and a per-case persistence write is attempted for the case. -/
theorem claim7_counterexample :
    (run_activation_tests cost0 (InitOutcome.linkFail "r1")
        [(sample_act_case, ok_act_stream, 5)]).run_id = some "r1"
    ∧ (run_activation_tests cost0 (InitOutcome.linkFail "r1")
        [(sample_act_case, ok_act_stream, 5)]).store_attempts = ["act-001"] :=
  ⟨rfl, rfl⟩

/-- Claim C7 amended: for every initialisation outcome the batch returns the
same ordered per-case results (computed case by case, independent of
persistence); when skill-version storage or run-record creation fails,
run_id stays null and neither per-case writes nor the run-record update are
attempted — but when only the version-link step fails, run_id is already
bound and writes are still attempted. -/
theorem claim7_amended_degraded_mode (cost : UsageData → String → Rat)
    (init : InitOutcome)
    (ainputs : List (ActivationTestCase × AgentStream × Nat))
    (qinputs : List (QualityTestCase × AgentStream × Nat)) :
    ((run_activation_tests cost init ainputs).results
        = ainputs.map (fun x => test_skill_activation cost x.1 x.2.1 x.2.2))
    ∧ ((run_quality_tests cost init qinputs).results
        = qinputs.map (fun x => test_response_quality cost x.1 x.2.1 x.2.2))
    ∧ (init = InitOutcome.versionsFail ∨ init = InitOutcome.createFail →
        (run_activation_tests cost init ainputs).run_id = none
        ∧ (run_activation_tests cost init ainputs).store_attempts = []
        ∧ (run_activation_tests cost init ainputs).update_attempted = false
        ∧ (run_quality_tests cost init qinputs).run_id = none
        ∧ (run_quality_tests cost init qinputs).store_attempts = []
        ∧ (run_quality_tests cost init qinputs).update_attempted = false) := by
  refine ⟨?_, ?_, ?_⟩
  · simpa [run_activation_tests] using
      run_activation_loop_results cost (init_run_id init) ainputs
  · simpa [run_quality_tests] using
      run_quality_loop_results cost (init_run_id init) qinputs
  · rintro (rfl | rfl) <;>
      exact ⟨rfl, run_activation_loop_store_none cost ainputs, rfl,
        rfl, run_quality_loop_store_none cost qinputs, rfl⟩

/-- Witness for the amended C7: a batch with failed version storage attempts
no per-case write. -/
theorem claim7_amended_degraded_mode_witness :
    (run_activation_tests cost0 InitOutcome.versionsFail
        [(sample_act_case, ok_act_stream, 5)]).store_attempts = [] :=
  ((claim7_amended_degraded_mode cost0 InitOutcome.versionsFail
      [(sample_act_case, ok_act_stream, 5)] []).2.2 (Or.inl rfl)).2.1

/-- Claim C8 is false as stated: a quality stream that delivers the text
"Use OnClick here" and then raises yields a result whose preview is empty,
whose full text is absent and whose metrics are absent — the partial output
collected before the error is discarded, not preserved alongside it. -/
theorem claim8_counterexample :
    (consume_quality err_quality_stream.msgs "" usage0).1 = "Use OnClick here"
    ∧ (test_response_quality cost0 sample_quality_case err_quality_stream 3).error
        = some "boom"
    ∧ (test_response_quality cost0 sample_quality_case err_quality_stream 3).response_preview
        = ""
    ∧ (test_response_quality cost0 sample_quality_case err_quality_stream 3).response_full_text
        = none
    ∧ (test_response_quality cost0 sample_quality_case err_quality_stream 3).metrics
        = none := by
  refine ⟨by decide, rfl, rfl, rfl, rfl⟩

/-- Claim C8 amended: when the stream error is actually raised, the handler
result is exactly the catch-branch record — accumulated response text,
usage counters and any detected activation are discarded; only the case id,
the expected skill and the error text survive (plus logs, which are elided
here). -/
theorem claim8_amended_partials_discarded (cost : UsageData → String → Rat)
    (tc : ActivationTestCase) (qc : QualityTestCase) (st : AgentStream)
    (lat : Nat) (e : String) (he : st.err = some e) :
    ((consume_activation st.msgs none usage0).1 = none →
      test_skill_activation cost tc st lat = activation_error_result tc e)
    ∧ test_response_quality cost qc st lat = quality_error_result qc e := by
  constructor
  · intro hn
    simp [test_skill_activation, hn, he, truthy_str]
  · simp [test_response_quality, he]

/-- Witness for the amended C8 at a concrete erroring quality stream. -/
theorem claim8_amended_partials_discarded_witness :
    test_response_quality cost0 sample_quality_case err_quality_stream 9
      = quality_error_result sample_quality_case "boom" :=
  (claim8_amended_partials_discarded cost0 sample_act_case sample_quality_case
      err_quality_stream 9 "boom" rfl).2

/-- Claim C9: on the non-error path the full text is the whole accumulated
response and the preview its first 200 characters; on the error path the
preview is empty and the full text absent; in every case the preview is a
prefix of the accumulated response of length at most 200. -/
theorem claim9_preview_bounds (cost : UsageData → String → Rat)
    (tc : QualityTestCase) (st : AgentStream) (lat : Nat) :
    ((test_response_quality cost tc st lat).error = none →
      (test_response_quality cost tc st lat).response_full_text
          = some (consume_quality st.msgs "" usage0).1
      ∧ (test_response_quality cost tc st lat).response_preview
          = String.mk ((consume_quality st.msgs "" usage0).1.data.take 200))
    ∧ (∀ e, (test_response_quality cost tc st lat).error = some e →
        (test_response_quality cost tc st lat).response_preview = ""
        ∧ (test_response_quality cost tc st lat).response_full_text = none)
    ∧ ((test_response_quality cost tc st lat).response_preview.data
        <+: (consume_quality st.msgs "" usage0).1.data)
    ∧ ((test_response_quality cost tc st lat).response_preview.length ≤ 200) := by
  rcases herr : st.err with _ | e
  · refine ⟨fun _ => ⟨?_, ?_⟩, ?_, ?_, ?_⟩
    · simp [test_response_quality, herr]
    · simp [test_response_quality, herr]
    · intro e2 he2
      exfalso
      simp [test_response_quality, herr] at he2
    · have hd : (test_response_quality cost tc st lat).response_preview.data
          = (consume_quality st.msgs "" usage0).1.data.take 200 := by
        simp [test_response_quality, herr]
      rw [hd]
      exact ⟨(consume_quality st.msgs "" usage0).1.data.drop 200,
        List.take_append_drop _ _⟩
    · have hd2 : (test_response_quality cost tc st lat).response_preview
          = String.mk ((consume_quality st.msgs "" usage0).1.data.take 200) := by
        simp [test_response_quality, herr]
      rw [hd2]
      show ((consume_quality st.msgs "" usage0).1.data.take 200).length ≤ 200
      rw [List.length_take]
      omega
  · have hp : (test_response_quality cost tc st lat).response_preview = "" := by
      simp [test_response_quality, herr, quality_error_result]
    refine ⟨fun h => ?_, fun e2 _ => ⟨hp, ?_⟩, ?_, ?_⟩
    · exfalso
      simp [test_response_quality, herr, quality_error_result] at h
    · simp [test_response_quality, herr, quality_error_result]
    · rw [hp]
      exact List.nil_prefix
    · rw [hp]
      decide

/-- Witness for C9 at a concrete completed stream. -/
theorem claim9_preview_bounds_witness :
    (test_response_quality cost0 sample_quality_case ok_quality_stream 3).response_full_text
      = some (consume_quality ok_quality_stream.msgs "" usage0).1 :=
  ((claim9_preview_bounds cost0 sample_quality_case ok_quality_stream 3).1 rfl).1

/-- A concrete activation result for the C10 witness. -/
def sample_act_result : ActivationTestResult :=
  activation_error_result sample_act_case "x"

/-- A concrete quality result for the C10 witness. -/
def sample_quality_result : QualityTestResult :=
  quality_error_result sample_quality_case "x"

/-- Claim C10: both storage commands coerce falsy metric values to null —
a stored row built from all-zero metrics is identical to one built from
absent metrics, and any single metric column whose value is zero is stored
as null. -/
theorem claim10_falsy_metrics_null (rid : String) (ra : ActivationTestResult)
    (rq : QualityTestResult) (q : Option String) (sa : Option Bool)
    (tcs sc : Option String) (qq sk : String) (rft : Option String) :
    (store_activation_result rid { ra with metrics := some zero_metrics } q sa tcs sc
        = store_activation_result rid { ra with metrics := none } q sa tcs sc)
    ∧ (store_quality_result rid { rq with metrics := some zero_metrics } qq sk rft tcs sc
        = store_quality_result rid { rq with metrics := none } qq sk rft tcs sc)
    ∧ (∀ m : Metrics, m.input_tokens = 0 →
        (store_activation_result rid { ra with metrics := some m } q sa tcs sc).input_tokens
          = none)
    ∧ (∀ m : Metrics, m.output_tokens = 0 →
        (store_activation_result rid { ra with metrics := some m } q sa tcs sc).output_tokens
          = none)
    ∧ (∀ m : Metrics, m.thinking_tokens = 0 →
        (store_activation_result rid { ra with metrics := some m } q sa tcs sc).thinking_tokens
          = none)
    ∧ (∀ m : Metrics, m.latency_ms = 0 →
        (store_activation_result rid { ra with metrics := some m } q sa tcs sc).latency_ms
          = none)
    ∧ (∀ m : Metrics, m.estimated_cost_usd = 0 →
        (store_activation_result rid { ra with metrics := some m } q sa tcs sc).estimated_cost_usd
          = none)
    ∧ (∀ m : Metrics, m.input_tokens = 0 →
        (store_quality_result rid { rq with metrics := some m } qq sk rft tcs sc).input_tokens
          = none) := by
  refine ⟨?_, ?_, ?_, ?_, ?_, ?_, ?_, ?_⟩
  · simp [store_activation_result, or_null_nat, or_null_rat, zero_metrics]
  · simp [store_quality_result, or_null_nat, or_null_rat, zero_metrics]
  all_goals intro m hm
  all_goals simp [store_activation_result, store_quality_result,
    or_null_nat, or_null_rat, hm]

/-- Witness for C10: a zero input-token count is stored as null. -/
theorem claim10_falsy_metrics_null_witness :
    (store_activation_result "r"
        { sample_act_result with metrics := some zero_metrics }
        none none none none).input_tokens = none :=
  (claim10_falsy_metrics_null "r" sample_act_result sample_quality_result
      none none none none "q" "s" none).2.2.1 zero_metrics rfl
